import Mathlib

set_option maxRecDepth 16000

/-!
Shallow embedding of the iced candlestick-chart widget
(src/main.rs, src/candlestick.rs, src/binance.rs) and proofs about it.

Conventions used throughout:
* Rust `usize` / `i32` values are `ℕ` / `ℤ` with explicit wrap-around modulo
  `2 ^ 64` / `2 ^ 32` at every operation where the source can overflow
  (release-build semantics; debug builds panic at exactly those spots).
* `f32` / `f64` arithmetic on values that provably stay finite is carried
  exactly as `ℚ` (IEEE rounding is not modelled); the divisions in `draw`
  that can produce NaN or an infinity are modelled in the `FVal` domain,
  which makes NaN and the infinities explicit.
* The Rust field `open` is called `open_` here because `open` is a Lean
  keyword; all other names follow the source.
-/

namespace Candlestick

/-! Machine-integer helpers for the `usize` / `i32` arithmetic of the source. -/

/-- Wrapping `usize` subtraction `a - b` (release semantics, modulo `2 ^ 64`). -/
def usizeSub (a b : ℕ) : ℕ := (((a : ℤ) - (b : ℤ)) % (2 ^ 64 : ℤ)).toNat

/-- Wrapping `usize` addition `a + b` (release semantics, modulo `2 ^ 64`). -/
def usizeAdd (a b : ℕ) : ℕ := (a + b) % 2 ^ 64

/-- The cast `n as i32` from `usize`: truncate to 32 bits, reinterpret as signed. -/
def usizeToI32 (n : ℕ) : ℤ :=
  let m : ℕ := n % 2 ^ 32
  if m < 2 ^ 31 then (m : ℤ) else (m : ℤ) - 2 ^ 32

/-- The cast `z as usize` from `i32`: sign-extending two's-complement reinterpretation. -/
def i32ToUsize (z : ℤ) : ℕ := (z % (2 ^ 64 : ℤ)).toNat

/-- Wrapping `i32` addition result (release semantics, two's complement). -/
def i32Wrap (z : ℤ) : ℤ := (z + 2 ^ 31) % 2 ^ 32 - 2 ^ 31

/-- Truncation toward zero, the rounding used by Rust float-to-int casts. -/
def ratTrunc (q : ℚ) : ℤ := if 0 ≤ q then ⌊q⌋ else ⌈q⌉

/-- The cast `x as i32` from `f32`: truncate toward zero, saturating at the
`i32` bounds (NaN, which `ratTrunc` cannot receive, would give 0). -/
def f32ToI32 (q : ℚ) : ℤ := max (-(2 ^ 31)) (min (2 ^ 31 - 1) (ratTrunc q))

/-! Data model (src/candlestick.rs, src/binance.rs). -/

/-- One OHLC+volume sample (`struct Candle` in src/candlestick.rs). The Rust
fields are `f64`; inputs are ordinary finite numbers, carried exactly as `ℚ`. -/
structure Candle where
  timestamp : ℤ
  open_ : ℚ
  high : ℚ
  low : ℚ
  close : ℚ
  volume : ℚ
deriving DecidableEq

/-- Directional classification (`Candle::is_bullish`): `self.close >= self.open`. -/
def Candle.is_bullish (c : Candle) : Bool := c.open_ ≤ c.close

/-- Binance timeframe options (`enum Interval` in src/binance.rs). -/
inductive Interval
  | oneMinute
  | fiveMinutes
  | fifteenMinutes
  | thirtyMinutes
  | oneHour
  | fourHours
  | oneDay
deriving DecidableEq

/-- `Interval::default()` is `OneHour`. -/
def Interval.default : Interval := .oneHour

/-- Messages emitted by the chart widget (`enum ChartMessage` in src/candlestick.rs). -/
inductive ChartMessage
  | zoom (delta : ℚ)
  | pan (pixelDelta : ℚ)
deriving DecidableEq

/-- Application messages (`enum Message` in src/main.rs). The fetch-task
payload `Result<Vec<Candle>, String>` is `Except String (List Candle)`. -/
inductive Message
  | intervalSelected (interval : Interval)
  | dataFetched (result : Except String (List Candle))
  | refreshData
  | zoomIn
  | zoomOut
  | chartEvent (chartMsg : ChartMessage)

/-- Application state (`struct App` in src/main.rs). A `CandlestickChart`
owns only its candle list, so the `chart` field is an `Option (List Candle)`. -/
structure App where
  chart : Option (List Candle)
  candles : List Candle
  selected_interval : Interval
  loading : Bool
  error : Option String
  visible_candles : ℕ
  pan_offset : ℕ
deriving DecidableEq

/-- The state part of `App::new` (the initial fetch task is external I/O). -/
def App.new : App :=
  { chart := none
    candles := []
    selected_interval := Interval.default
    loading := false
    error := none
    visible_candles := 100
    pan_offset := 0 }

/-- The start/end indices computed by `App::update_chart`:
`end = candles.len() - pan_offset` (plain `usize` subtraction) and
`start = end.saturating_sub(visible_candles)` (saturating, i.e. `ℕ` subtraction). -/
def App.visibleStartEnd (app : App) : ℕ × ℕ :=
  let e := usizeSub app.candles.length app.pan_offset
  (e - app.visible_candles, e)

/-- `App::update_chart`: on an empty series it returns early (leaving the old
`chart` in place); otherwise it rebuilds the chart from `candles[start..end]`. -/
def App.update_chart (app : App) : App :=
  if app.candles.isEmpty then app
  else
    let se := app.visibleStartEnd
    { app with chart := some ((app.candles.drop se.1).take (se.2 - se.1)) }

/-- The state transition of `App::update` (src/main.rs); the returned iced
tasks are external I/O and not part of the state. -/
def App.update (app : App) (message : Message) : App :=
  match message with
  | .intervalSelected interval =>
      { app with selected_interval := interval, loading := true, error := none }
  | .dataFetched result =>
      let app := { app with loading := false }
      match result with
      | .ok candles =>
          let app := { app with candles := candles, pan_offset := 0 }
          let app := { app with visible_candles := min app.visible_candles app.candles.length }
          let app := app.update_chart
          { app with error := none }
      | .error e => { app with error := some e }
  | .refreshData => { app with loading := true, error := none }
  | .zoomIn =>
      ({ app with visible_candles := max (usizeSub app.visible_candles 10) 10 }).update_chart
  | .zoomOut =>
      ({ app with
          visible_candles := min (usizeAdd app.visible_candles 10) app.candles.length }).update_chart
  | .chartEvent chartMsg =>
      match chartMsg with
      | .zoom delta =>
          if 0 < delta then
            ({ app with visible_candles := max (usizeSub app.visible_candles 5) 10 }).update_chart
          else
            ({ app with
                visible_candles := min (usizeAdd app.visible_candles 5)
                  app.candles.length }).update_chart
      | .pan pixelDelta =>
          let pixels_per_candle : ℚ := 800 / (app.visible_candles : ℚ)
          let sensitivity : ℚ := 2
          let candle_delta : ℤ := f32ToI32 (pixelDelta * sensitivity / pixels_per_candle)
          let max_offset : ℕ := app.candles.length - app.visible_candles
          let pan2 : ℕ :=
            i32ToUsize (min (max (i32Wrap (usizeToI32 app.pan_offset + candle_delta)) 0)
              (usizeToI32 max_offset))
          ({ app with pan_offset := pan2 }).update_chart

/-! The `FVal` domain: the part of the IEEE value space that `draw` can hit.
Finite values are exact rationals; NaN and the infinities are explicit.
Only the operations the source performs on possibly-non-finite values are
modelled here; finite-only computations stay in `ℚ`. -/

/-- An IEEE-style floating-point value: an exact finite rational, NaN, or ±∞. -/
inductive FVal
  | fin (q : ℚ)
  | nan
  | inf
  | ninf
deriving DecidableEq

namespace FVal

/-- IEEE negation. -/
def neg : FVal → FVal
  | fin q => fin (-q)
  | nan => nan
  | inf => ninf
  | ninf => inf

/-- IEEE addition (finite part exact; `∞ + -∞ = NaN`; NaN propagates). -/
def add : FVal → FVal → FVal
  | nan, _ => nan
  | _, nan => nan
  | inf, ninf => nan
  | ninf, inf => nan
  | inf, _ => inf
  | _, inf => inf
  | ninf, _ => ninf
  | _, ninf => ninf
  | fin a, fin b => fin (a + b)

/-- IEEE subtraction, `a - b = a + (-b)`. -/
def sub (a b : FVal) : FVal := add a (neg b)

/-- IEEE multiplication (`∞ * 0 = NaN`; NaN propagates; signs as usual). -/
def mul : FVal → FVal → FVal
  | nan, _ => nan
  | _, nan => nan
  | inf, fin b => if b = 0 then nan else if 0 < b then inf else ninf
  | fin a, inf => if a = 0 then nan else if 0 < a then inf else ninf
  | ninf, fin b => if b = 0 then nan else if 0 < b then ninf else inf
  | fin a, ninf => if a = 0 then nan else if 0 < a then ninf else inf
  | inf, inf => inf
  | inf, ninf => ninf
  | ninf, inf => ninf
  | ninf, ninf => inf
  | fin a, fin b => fin (a * b)

/-- IEEE division: `0 / 0 = NaN`, `a / 0 = ±∞` for `a ≠ 0`, `a / ∞ = 0`,
`∞ / ∞ = NaN`; NaN propagates. (Signed zero is not modelled, so the sign of
a zero denominator is taken as positive.) -/
def div : FVal → FVal → FVal
  | nan, _ => nan
  | _, nan => nan
  | inf, inf => nan
  | inf, ninf => nan
  | ninf, inf => nan
  | ninf, ninf => nan
  | inf, fin b => if 0 ≤ b then inf else ninf
  | ninf, fin b => if 0 ≤ b then ninf else inf
  | fin _, inf => fin 0
  | fin _, ninf => fin 0
  | fin a, fin b =>
      if b = 0 then (if a = 0 then nan else if 0 < a then inf else ninf)
      else fin (a / b)

/-- Rust `f32::min` / `f64::min`: if one argument is NaN the other is returned. -/
def fmin : FVal → FVal → FVal
  | nan, y => y
  | x, nan => x
  | ninf, _ => ninf
  | _, ninf => ninf
  | inf, y => y
  | x, inf => x
  | fin a, fin b => fin (min a b)

/-- Rust `f32::max` / `f64::max`: if one argument is NaN the other is returned. -/
def fmax : FVal → FVal → FVal
  | nan, y => y
  | x, nan => x
  | inf, _ => inf
  | _, inf => inf
  | ninf, y => y
  | x, ninf => x
  | fin a, fin b => fin (max a b)

/-- IEEE absolute value. -/
def abs : FVal → FVal
  | fin q => fin |q|
  | nan => nan
  | inf => inf
  | ninf => inf

/-- Whether the value is an ordinary finite number (not NaN, not ±∞). -/
def isFinite : FVal → Bool
  | fin _ => true
  | _ => false

end FVal

/-- The cast `x as usize` from `f32`: truncate toward zero, saturating at
`0` and `usize::MAX`; NaN casts to 0. -/
def fvalToUsize : FVal → ℕ
  | .nan => 0
  | .inf => 2 ^ 64 - 1
  | .ninf => 0
  | .fin q => if q < 0 then 0 else min (ratTrunc q).toNat (2 ^ 64 - 1)

/-- The largest finite `f64`, `(2 ^ 53 - 1) * 2 ^ 971`, the start value of the
price-range folds (`f64::MAX`). -/
def F64_MAX : ℚ := (2 ^ 53 - 1) * 2 ^ 971

/-- The most negative finite `f64` (`f64::MIN`). -/
def F64_MIN : ℚ := -F64_MAX

/-! Interaction state and events (src/candlestick.rs). -/

/-- A 2-D point with `f32` coordinates (`iced::Point`). -/
structure Point where
  x : ℚ
  y : ℚ
deriving DecidableEq

/-- The canvas program state (`struct ChartState`). -/
structure ChartState where
  dragging : Bool
  last_x : ℚ
  cursor_position : Option Point
deriving DecidableEq

/-- `ChartState::default()`. -/
def ChartState.default : ChartState :=
  { dragging := false, last_x := 0, cursor_position := none }

/-- Mouse buttons (`iced::mouse::Button`). -/
inductive MouseButton
  | left
  | right
  | middle
  | back
  | forward
deriving DecidableEq

/-- Wheel scroll deltas (`iced::mouse::ScrollDelta`). -/
inductive ScrollDelta
  | lines (x y : ℚ)
  | pixels (x y : ℚ)
deriving DecidableEq

/-- Mouse events (the `iced::mouse::Event` constructors the widget looks at;
`cursorEntered` stands for every other mouse event). -/
inductive MouseEvent
  | wheelScrolled (delta : ScrollDelta)
  | buttonPressed (button : MouseButton)
  | buttonReleased (button : MouseButton)
  | cursorMoved (position : Point)
  | cursorLeft
  | cursorEntered
deriving DecidableEq

/-- Canvas events (`iced::widget::canvas::Event`): mouse events, or one of the
non-mouse kinds the catch-all arm ignores. -/
inductive Event
  | mouse (event : MouseEvent)
  | keyboard
  | touch
deriving DecidableEq

/-- Event status (`iced::event::Status`). -/
inductive Status
  | captured
  | ignored
deriving DecidableEq

namespace CandlestickChart

/-- The state transition of `canvas::Program::update` for `CandlestickChart`
(src/candlestick.rs). `cursor` is `Cursor::position()`: `some p` when the
cursor is available, `none` otherwise. The `&mut State` is returned. -/
def update (state : ChartState) (event : Event) (cursor : Option Point) :
    ChartState × Status × Option ChartMessage :=
  match event with
  | .mouse mouseEvent =>
    match mouseEvent with
    | .wheelScrolled delta =>
        match delta with
        | .lines _ y => (state, .captured, some (.zoom y))
        | .pixels _ y => (state, .captured, some (.zoom y))
    | .buttonPressed .left =>
        match cursor with
        | some position =>
            ({ state with dragging := true, last_x := position.x }, .captured, none)
        | none => (state, .ignored, none)
    | .buttonReleased .left => ({ state with dragging := false }, .captured, none)
    | .cursorMoved _ =>
        let state := { state with cursor_position := cursor }
        if state.dragging then
          match cursor with
          | some position =>
              let delta := position.x - state.last_x
              ({ state with last_x := position.x }, .captured, some (.pan delta))
          | none => (state, .ignored, none)
        else (state, .ignored, none)
    | .cursorLeft => ({ state with cursor_position := none }, .ignored, none)
    | _ => (state, .ignored, none)
  | _ => (state, .ignored, none)

end CandlestickChart

/-! The renderer (`canvas::Program::draw` for `CandlestickChart`): the ordered
list of draw primitives it emits. Geometry that provably stays finite is `ℚ`;
the price→pixel and volume-scaling computations, which divide by a possibly
zero span, live in `FVal`. Text contents carry the raw numbers (timestamping
and decimal formatting are presentation only). -/

/-- One draw primitive, in the order `draw` emits them. -/
inductive Primitive
  | background (w h : ℚ)
  | gridLine (x1 y1 x2 y2 : ℚ)
  | priceLabel (x y price : ℚ)
  | xLabel (x y : ℚ) (timestamp : ℤ)
  | border (x y w h : ℚ)
  | volumeBar (x : ℚ) (y : FVal) (w : ℚ) (h : FVal) (bullish : Bool)
  | wick (x : ℚ) (y1 y2 : FVal) (strokeWidth : ℚ) (bullish : Bool)
  | body (x : ℚ) (top : FVal) (w : ℚ) (h : FVal) (bullish : Bool)
  | crosshairV (x y1 y2 : ℚ)
  | crosshairH (x1 x2 y : ℚ)
  | infoBox (x y w h : ℚ)
  | infoBoxBorder (x y w h : ℚ)
  | infoTime (x y : ℚ) (timestamp : ℤ)
  | infoVal (x y v : ℚ)
deriving DecidableEq

/-- The minimum over the visible lows, started at `f64::MAX` like the source's
fold (`min_price` before padding). -/
def rawMinPrice (candles : List Candle) : ℚ :=
  candles.foldl (fun m c => min m c.low) F64_MAX

/-- The maximum over the visible highs, started at `f64::MIN` (`max_price`
before padding). -/
def rawMaxPrice (candles : List Candle) : ℚ :=
  candles.foldl (fun m c => max m c.high) F64_MIN

/-- `min_price` after the 10% padding: `min_price - (max - min) * 0.1`. -/
def paddedMinPrice (candles : List Candle) : ℚ :=
  rawMinPrice candles - (rawMaxPrice candles - rawMinPrice candles) * (1 / 10)

/-- `max_price` after the 10% padding. -/
def paddedMaxPrice (candles : List Candle) : ℚ :=
  rawMaxPrice candles + (rawMaxPrice candles - rawMinPrice candles) * (1 / 10)

/-- `price_span = max_price - min_price` (after padding); not guarded against 0. -/
def priceSpan (candles : List Candle) : ℚ :=
  paddedMaxPrice candles - paddedMinPrice candles

/-- The grid-line/price-label loop (`for i in 0..=num_price_lines`, with
`num_price_lines = 5`, so six iterations). -/
def gridPrims (cx cy cw ch min_price price_span : ℚ) : List Primitive :=
  (List.range (5 + 1)).flatMap fun i =>
    [Primitive.gridLine cx (cy + ch - (i : ℚ) / 5 * ch) (cx + cw) (cy + ch - (i : ℚ) / 5 * ch),
     Primitive.priceLabel (cx + cw + 5) (cy + ch - (i : ℚ) / 5 * ch)
       (min_price + (i : ℚ) / 5 * price_span)]

/-- The x-axis date-label loop: up to five labels at stride `len / (n - 1)`,
index clamped to `len - 1`. -/
def xLabelPrims (candles : List Candle) (cx cy cw ch : ℚ) : List Primitive :=
  let len := candles.length
  let num_x_labels := min 5 len
  let step := if 1 < num_x_labels then len / (num_x_labels - 1) else 1
  (List.range num_x_labels).map fun i =>
    let candle_idx := min (i * step) (len - 1)
    Primitive.xLabel (cx + ((candle_idx : ℚ) / (len : ℚ)) * cw) (cy + ch + 15)
      ((candles.getD candle_idx ⟨0, 0, 0, 0, 0, 0⟩).timestamp)

/-- The volume-bar loop, carrying the running index of `enumerate()`. Each
bar's height is `volume / max_volume * (chart_height * 0.3)`, computed in
`FVal` because `max_volume` can be 0. -/
def volumeLoop (cx cy cw ch candle_width max_volume : ℚ) :
    ℕ → List Candle → List Primitive
  | _, [] => []
  | i, c :: rest =>
      let x := cx + (i : ℚ) * candle_width
      let bar_height := FVal.mul (FVal.div (.fin c.volume) (.fin max_volume))
        (.fin (ch * (3 / 10)))
      Primitive.volumeBar (x + candle_width * (1 / 10))
          (FVal.sub (.fin (cy + ch)) bar_height) (candle_width * (8 / 10)) bar_height
          c.is_bullish
        :: volumeLoop cx cy cw ch candle_width max_volume (i + 1) rest

/-- All volume bars (`max_volume` is the fold over visible volumes started at
`f64::MIN`). -/
def volumePrims (candles : List Candle) (cx cy cw ch : ℚ) : List Primitive :=
  let max_volume := candles.foldl (fun m c => max m c.volume) F64_MIN
  volumeLoop cx cy cw ch (cw / (candles.length : ℚ)) max_volume 0 candles

/-- Price-to-screen-y conversion of the candle loop:
`chart_y + chart_height - (price - min_price) / price_span * chart_height`,
in `FVal` because `price_span` can be 0. -/
def priceToY (cy ch min_price price_span p : ℚ) : FVal :=
  FVal.sub (.fin (cy + ch))
    (FVal.mul (FVal.div (.fin (p - min_price)) (.fin price_span)) (.fin ch))

/-- The candle-body/wick loop, carrying the running index of `enumerate()`.
Per candle: the wick (high→low) is stroked first, then the body
(open→close, with a 1-pixel minimum height) is filled. -/
def candleLoop (cx cy ch candle_width min_price price_span : ℚ) :
    ℕ → List Candle → List Primitive
  | _, [] => []
  | i, c :: rest =>
      let x := cx + (i : ℚ) * candle_width + candle_width / 2
      let open_y := priceToY cy ch min_price price_span c.open_
      let close_y := priceToY cy ch min_price price_span c.close
      let high_y := priceToY cy ch min_price price_span c.high
      let low_y := priceToY cy ch min_price price_span c.low
      Primitive.wick x high_y low_y (candle_width * (1 / 10)) c.is_bullish
        :: Primitive.body (x - candle_width * (7 / 10) / 2) (FVal.fmin open_y close_y)
            (candle_width * (7 / 10))
            (FVal.fmax (FVal.abs (FVal.sub open_y close_y)) (.fin 1)) c.is_bullish
        :: candleLoop cx cy ch candle_width min_price price_span (i + 1) rest

/-- All candle bodies and wicks. -/
def candlePrims (candles : List Candle) (cx cy cw ch min_price price_span : ℚ) :
    List Primitive :=
  candleLoop cx cy ch (cw / (candles.length : ℚ)) min_price price_span 0 candles

/-- The crosshair and info box, drawn only when a hover position is recorded
and lies inside the chart rectangle; the hovered candle is found by the
truncating cast of `(x - chart_x) / candle_width` and bounds-checked. -/
def crosshairPrims (candles : List Candle) (state : ChartState) (cx cy cw ch : ℚ) :
    List Primitive :=
  match state.cursor_position with
  | none => []
  | some pos =>
      if cx ≤ pos.x ∧ pos.x ≤ cx + cw ∧ cy ≤ pos.y ∧ pos.y ≤ cy + ch then
        let candle_width := cw / (candles.length : ℚ)
        let candle_index := fvalToUsize (FVal.div (.fin (pos.x - cx)) (.fin candle_width))
        [Primitive.crosshairV pos.x cy (cy + ch),
         Primitive.crosshairH cx (cx + cw) pos.y] ++
        (if candle_index < candles.length then
          let c := candles.getD candle_index ⟨0, 0, 0, 0, 0, 0⟩
          let ibx := cx + cw - 250
          let iby := cy + 10
          [Primitive.infoBox ibx iby 240 110,
           Primitive.infoBoxBorder ibx iby 240 110,
           Primitive.infoTime (ibx + 10) (iby + 10) c.timestamp,
           Primitive.infoVal (ibx + 10) (iby + 10 + 16) c.open_,
           Primitive.infoVal (ibx + 10) (iby + 10 + 16 * 2) c.high,
           Primitive.infoVal (ibx + 10) (iby + 10 + 16 * 3) c.low,
           Primitive.infoVal (ibx + 10) (iby + 10 + 16 * 4) c.close,
           Primitive.infoVal (ibx + 10) (iby + 10 + 16 * 5) c.volume]
         else [])
      else []

/-- The full primitive list of `CandlestickChart::draw` on a surface of size
`w × h`: nothing on an empty candle list, otherwise background, grid lines
with price labels, x-axis labels, border, volume bars, candles, crosshair. -/
def CandlestickChart.draw (candles : List Candle) (state : ChartState) (w h : ℚ) :
    List Primitive :=
  if candles.isEmpty then []
  else
    let cx : ℚ := 10
    let cy : ℚ := 10
    let cw : ℚ := w - 10 - 60
    let ch : ℚ := h - 10 - 30
    let min_price := paddedMinPrice candles
    let price_span := priceSpan candles
    Primitive.background w h
      :: (gridPrims cx cy cw ch min_price price_span
          ++ xLabelPrims candles cx cy cw ch
          ++ [Primitive.border cx cy cw ch]
          ++ volumePrims candles cx cy cw ch
          ++ candlePrims candles cx cy cw ch min_price price_span
          ++ crosshairPrims candles state cx cy cw ch)

/-- What the application window shows (`App::view`): the candles of the chart
widget when one has been built, nothing before that. -/
def App.displayedCandles (app : App) : List Candle :=
  match app.chart with
  | some candles => candles
  | none => []

/-! Extractors used to state properties of the primitive list. -/

/-- The horizontal grid lines of a primitive list, as `(x1, y1, x2, y2)`. -/
def gridLinesOf (prims : List Primitive) : List (ℚ × ℚ × ℚ × ℚ) :=
  prims.filterMap fun p =>
    match p with
    | .gridLine x1 y1 x2 y2 => some (x1, y1, x2, y2)
    | _ => none

/-- The price labels of a primitive list, as `(x, y, price)`. -/
def priceLabelsOf (prims : List Primitive) : List (ℚ × ℚ × ℚ) :=
  prims.filterMap fun p =>
    match p with
    | .priceLabel x y price => some (x, y, price)
    | _ => none

/-- The wick endpoints of a primitive list, as `(y1, y2)`. -/
def wickYsOf (prims : List Primitive) : List (FVal × FVal) :=
  prims.filterMap fun p =>
    match p with
    | .wick _ y1 y2 _ _ => some (y1, y2)
    | _ => none

/-- The volume-bar heights of a primitive list. -/
def volumeHeightsOf (prims : List Primitive) : List FVal :=
  prims.filterMap fun p =>
    match p with
    | .volumeBar _ _ _ h _ => some h
    | _ => none

/-! Concrete inputs used by the claim theorems and witnesses. -/

/-- An ordinary sample bar (integer-valued prices keep evaluation structural). -/
def sampleCandle : Candle := ⟨0, 1, 2, 1, 1, 10⟩

/-- The degenerate bar of the spec's safety scenario:
`high = low = open = close` and `volume = 0`. -/
def degenerateCandle : Candle := ⟨0, 100, 100, 100, 100, 0⟩

/-- The app right after loading a 100-bar series. -/
def c1s1 : App := App.new.update (.dataFetched (.ok (List.replicate 100 sampleCandle)))

/-- After five ZoomIn presses: `visible_candles` is 50. -/
def c1s2 : App :=
  ((((c1s1.update .zoomIn).update .zoomIn).update .zoomIn).update .zoomIn).update .zoomIn

/-- After a +400px pan: `pan_offset` is clamped to its maximum, 50. -/
def c1s3 : App := c1s2.update (.chartEvent (.pan 400))

/-- After one ZoomOut press: `visible_candles` is 60 but `pan_offset` stays 50. -/
def c1s4 : App := c1s3.update .zoomOut

/-- The app after loading a 5-bar series and pressing ZoomIn once:
`visible_candles - 10` underflows the `usize`. -/
def c1sA : App :=
  (App.new.update (.dataFetched (.ok (List.replicate 5 sampleCandle)))).update .zoomIn

/-- The app after loading an empty series: `visible_candles` is clamped to 0. -/
def c2s0 : App := App.new.update (.dataFetched (.ok []))

/-- ZoomIn on the empty-series state: `0usize - 10` wraps to `2 ^ 64 - 10`. -/
def c2s1 : App := c2s0.update .zoomIn

/-- The app after loading a one-bar series (its chart shows that bar). -/
def c4s1 : App := App.new.update (.dataFetched (.ok [sampleCandle]))

/-- The same app after then loading an empty series: the stale chart remains. -/
def c4s2 : App := c4s1.update (.dataFetched (.ok []))

/-- The app after loading a 500-bar series (`visible_candles` 100, `pan_offset` 0). -/
def app500 : App := App.new.update (.dataFetched (.ok (List.replicate 500 sampleCandle)))

/-- The app after loading a 30-bar series (`visible_candles` clamped to 30). -/
def app30 : App := App.new.update (.dataFetched (.ok (List.replicate 30 sampleCandle)))

/-! Helper lemmas: how each message changes the series-window fields, and
exact characterisations of the machine-integer casts on in-range values. -/

theorem update_chart_candles (a : App) : a.update_chart.candles = a.candles := by
  unfold App.update_chart; split <;> rfl

theorem update_chart_visible (a : App) :
    a.update_chart.visible_candles = a.visible_candles := by
  unfold App.update_chart; split <;> rfl

theorem update_chart_pan (a : App) : a.update_chart.pan_offset = a.pan_offset := by
  unfold App.update_chart; split <;> rfl

theorem update_chart_visibleStartEnd (a : App) :
    a.update_chart.visibleStartEnd = a.visibleStartEnd := by
  simp only [App.visibleStartEnd, update_chart_candles, update_chart_pan,
    update_chart_visible]

theorem update_ok_candles (a : App) (cs : List Candle) :
    (a.update (.dataFetched (.ok cs))).candles = cs := by
  simp only [App.update, update_chart_candles]

theorem update_ok_visible (a : App) (cs : List Candle) :
    (a.update (.dataFetched (.ok cs))).visible_candles =
      min a.visible_candles cs.length := by
  simp only [App.update, update_chart_visible]

theorem update_ok_pan (a : App) (cs : List Candle) :
    (a.update (.dataFetched (.ok cs))).pan_offset = 0 := by
  simp only [App.update, update_chart_pan]

theorem update_ok_chart (a : App) (cs : List Candle) :
    (a.update (.dataFetched (.ok cs))).chart =
      (App.update_chart { a with
        loading := false
        candles := cs
        pan_offset := 0
        visible_candles := min a.visible_candles cs.length }).chart := by
  simp only [App.update]

theorem update_zoomIn_candles (a : App) : (a.update .zoomIn).candles = a.candles := by
  simp only [App.update, update_chart_candles]

theorem update_zoomIn_visible (a : App) :
    (a.update .zoomIn).visible_candles = max (usizeSub a.visible_candles 10) 10 := by
  simp only [App.update, update_chart_visible]

theorem update_zoomIn_pan (a : App) : (a.update .zoomIn).pan_offset = a.pan_offset := by
  simp only [App.update, update_chart_pan]

theorem update_zoomOut_candles (a : App) : (a.update .zoomOut).candles = a.candles := by
  simp only [App.update, update_chart_candles]

theorem update_zoomOut_visible (a : App) :
    (a.update .zoomOut).visible_candles =
      min (usizeAdd a.visible_candles 10) a.candles.length := by
  simp only [App.update, update_chart_visible]

theorem update_zoomOut_pan (a : App) : (a.update .zoomOut).pan_offset = a.pan_offset := by
  simp only [App.update, update_chart_pan]

theorem update_pan_candles (a : App) (δ : ℚ) :
    (a.update (.chartEvent (.pan δ))).candles = a.candles := by
  simp only [App.update, update_chart_candles]

theorem update_pan_visible (a : App) (δ : ℚ) :
    (a.update (.chartEvent (.pan δ))).visible_candles = a.visible_candles := by
  simp only [App.update, update_chart_visible]

theorem update_pan_pan (a : App) (δ : ℚ) :
    (a.update (.chartEvent (.pan δ))).pan_offset =
      i32ToUsize (min (max (i32Wrap (usizeToI32 a.pan_offset +
        f32ToI32 (δ * 2 / (800 / (a.visible_candles : ℚ))))) 0)
        (usizeToI32 (a.candles.length - a.visible_candles))) := by
  simp only [App.update, update_chart_pan]

theorem update_wzoomIn_candles (a : App) (δ : ℚ) (h : 0 < δ) :
    (a.update (.chartEvent (.zoom δ))).candles = a.candles := by
  simp only [App.update, if_pos h, update_chart_candles]

theorem update_wzoomIn_visible (a : App) (δ : ℚ) (h : 0 < δ) :
    (a.update (.chartEvent (.zoom δ))).visible_candles =
      max (usizeSub a.visible_candles 5) 10 := by
  simp only [App.update, if_pos h, update_chart_visible]

theorem update_wzoomIn_pan (a : App) (δ : ℚ) (h : 0 < δ) :
    (a.update (.chartEvent (.zoom δ))).pan_offset = a.pan_offset := by
  simp only [App.update, if_pos h, update_chart_pan]

theorem update_wzoomOut_visible (a : App) (δ : ℚ) (h : ¬ 0 < δ) :
    (a.update (.chartEvent (.zoom δ))).visible_candles =
      min (usizeAdd a.visible_candles 5) a.candles.length := by
  simp only [App.update, if_neg h, update_chart_visible]

theorem usizeSub_of_le (a b : ℕ) (hb : b ≤ a) (ha : a < 2 ^ 64) :
    usizeSub a b = a - b := by
  rw [usizeSub, Int.emod_eq_of_lt (by omega) (by omega)]
  omega

theorem usizeAdd_of_lt (a b : ℕ) (h : a + b < 2 ^ 64) : usizeAdd a b = a + b := by
  rw [usizeAdd, Nat.mod_eq_of_lt h]

theorem usizeToI32_of_lt (n : ℕ) (h : n < 2 ^ 31) : usizeToI32 n = n := by
  unfold usizeToI32
  rw [Nat.mod_eq_of_lt (by omega), if_pos h]

theorem i32Wrap_of (z : ℤ) (h1 : -(2 ^ 31) ≤ z) (h2 : z < 2 ^ 31) : i32Wrap z = z := by
  unfold i32Wrap
  rw [Int.emod_eq_of_lt (by omega) (by omega)]
  omega

theorem f32ToI32_of (q : ℚ) (h : (ratTrunc q).natAbs < 2 ^ 31) :
    f32ToI32 q = ratTrunc q := by
  unfold f32ToI32
  omega

theorem i32ToUsize_of (z : ℤ) (h0 : 0 ≤ z) (h : z < 2 ^ 64) : i32ToUsize z = z.toNat := by
  unfold i32ToUsize
  rw [Int.emod_eq_of_lt h0 h]

theorem ratTrunc_nonneg (q : ℚ) (h : 0 ≤ q) : 0 ≤ ratTrunc q := by
  rw [ratTrunc, if_pos h]
  exact Int.floor_nonneg.mpr h

theorem app500_len : app500.candles.length = 500 := by
  rw [app500, update_ok_candles]; simp

theorem app500_visible : app500.visible_candles = 100 := by
  rw [app500, update_ok_visible]; simp [App.new]

theorem app500_pan : app500.pan_offset = 0 := by
  rw [app500, update_ok_pan]

theorem app30_len : app30.candles.length = 30 := by
  rw [app30, update_ok_candles]; simp

theorem app30_visible : app30.visible_candles = 30 := by
  rw [app30, update_ok_visible]; simp [App.new]

theorem c5_trunc_eval : ratTrunc (-(50 * 2 : ℚ) / (800 / 100)) = -12 := by
  have h : (-(50 * 2 : ℚ) / (800 / 100)) = -(25 / 2) := by norm_num
  rw [ratTrunc, h, if_neg (by norm_num), Int.ceil_neg]
  norm_num

/-! Helper lemmas about the primitive-list extractors. -/

theorem wickYsOf_append (l1 l2 : List Primitive) :
    wickYsOf (l1 ++ l2) = wickYsOf l1 ++ wickYsOf l2 := by
  simp [wickYsOf]

theorem volumeHeightsOf_append (l1 l2 : List Primitive) :
    volumeHeightsOf (l1 ++ l2) = volumeHeightsOf l1 ++ volumeHeightsOf l2 := by
  simp [volumeHeightsOf]

theorem gridLinesOf_append (l1 l2 : List Primitive) :
    gridLinesOf (l1 ++ l2) = gridLinesOf l1 ++ gridLinesOf l2 := by
  simp [gridLinesOf]

theorem priceLabelsOf_append (l1 l2 : List Primitive) :
    priceLabelsOf (l1 ++ l2) = priceLabelsOf l1 ++ priceLabelsOf l2 := by
  simp [priceLabelsOf]

theorem priceToY_nan (cy ch : ℚ) : priceToY cy ch 100 0 100 = FVal.nan := by
  rw [priceToY]
  norm_num [FVal.div, FVal.mul, FVal.sub, FVal.neg, FVal.add]

theorem gridLinesOf_gridPrims (cx cy cw ch mp sp : ℚ) :
    gridLinesOf (gridPrims cx cy cw ch mp sp) =
      [(cx, cy + ch - 0 / 5 * ch, cx + cw, cy + ch - 0 / 5 * ch),
       (cx, cy + ch - 1 / 5 * ch, cx + cw, cy + ch - 1 / 5 * ch),
       (cx, cy + ch - 2 / 5 * ch, cx + cw, cy + ch - 2 / 5 * ch),
       (cx, cy + ch - 3 / 5 * ch, cx + cw, cy + ch - 3 / 5 * ch),
       (cx, cy + ch - 4 / 5 * ch, cx + cw, cy + ch - 4 / 5 * ch),
       (cx, cy + ch - 5 / 5 * ch, cx + cw, cy + ch - 5 / 5 * ch)] := by
  have h : gridLinesOf (gridPrims cx cy cw ch mp sp) =
      [(cx, cy + ch - ((0 : ℕ) : ℚ) / 5 * ch, cx + cw, cy + ch - ((0 : ℕ) : ℚ) / 5 * ch),
       (cx, cy + ch - ((1 : ℕ) : ℚ) / 5 * ch, cx + cw, cy + ch - ((1 : ℕ) : ℚ) / 5 * ch),
       (cx, cy + ch - ((2 : ℕ) : ℚ) / 5 * ch, cx + cw, cy + ch - ((2 : ℕ) : ℚ) / 5 * ch),
       (cx, cy + ch - ((3 : ℕ) : ℚ) / 5 * ch, cx + cw, cy + ch - ((3 : ℕ) : ℚ) / 5 * ch),
       (cx, cy + ch - ((4 : ℕ) : ℚ) / 5 * ch, cx + cw, cy + ch - ((4 : ℕ) : ℚ) / 5 * ch),
       (cx, cy + ch - ((5 : ℕ) : ℚ) / 5 * ch, cx + cw, cy + ch - ((5 : ℕ) : ℚ) / 5 * ch)] :=
    rfl
  rw [h]
  norm_num

theorem priceLabelsOf_gridPrims (cx cy cw ch mp sp : ℚ) :
    priceLabelsOf (gridPrims cx cy cw ch mp sp) =
      [(cx + cw + 5, cy + ch - 0 / 5 * ch, mp + 0 / 5 * sp),
       (cx + cw + 5, cy + ch - 1 / 5 * ch, mp + 1 / 5 * sp),
       (cx + cw + 5, cy + ch - 2 / 5 * ch, mp + 2 / 5 * sp),
       (cx + cw + 5, cy + ch - 3 / 5 * ch, mp + 3 / 5 * sp),
       (cx + cw + 5, cy + ch - 4 / 5 * ch, mp + 4 / 5 * sp),
       (cx + cw + 5, cy + ch - 5 / 5 * ch, mp + 5 / 5 * sp)] := by
  have h : priceLabelsOf (gridPrims cx cy cw ch mp sp) =
      [(cx + cw + 5, cy + ch - ((0 : ℕ) : ℚ) / 5 * ch, mp + ((0 : ℕ) : ℚ) / 5 * sp),
       (cx + cw + 5, cy + ch - ((1 : ℕ) : ℚ) / 5 * ch, mp + ((1 : ℕ) : ℚ) / 5 * sp),
       (cx + cw + 5, cy + ch - ((2 : ℕ) : ℚ) / 5 * ch, mp + ((2 : ℕ) : ℚ) / 5 * sp),
       (cx + cw + 5, cy + ch - ((3 : ℕ) : ℚ) / 5 * ch, mp + ((3 : ℕ) : ℚ) / 5 * sp),
       (cx + cw + 5, cy + ch - ((4 : ℕ) : ℚ) / 5 * ch, mp + ((4 : ℕ) : ℚ) / 5 * sp),
       (cx + cw + 5, cy + ch - ((5 : ℕ) : ℚ) / 5 * ch, mp + ((5 : ℕ) : ℚ) / 5 * sp)] :=
    rfl
  rw [h]
  norm_num

theorem gridLinesOf_xLabelPrims (cs : List Candle) (cx cy cw ch : ℚ) :
    gridLinesOf (xLabelPrims cs cx cy cw ch) = [] := by
  simp [gridLinesOf, xLabelPrims, List.filterMap_eq_nil_iff]

theorem priceLabelsOf_xLabelPrims (cs : List Candle) (cx cy cw ch : ℚ) :
    priceLabelsOf (xLabelPrims cs cx cy cw ch) = [] := by
  simp [priceLabelsOf, xLabelPrims, List.filterMap_eq_nil_iff]

theorem gridLinesOf_volumeLoop (cx cy cw ch w mv : ℚ) (i : ℕ) (cs : List Candle) :
    gridLinesOf (volumeLoop cx cy cw ch w mv i cs) = [] := by
  induction cs generalizing i with
  | nil => rfl
  | cons c rest ih => simp [volumeLoop, gridLinesOf, List.filterMap_cons] at ih ⊢; exact ih _

theorem priceLabelsOf_volumeLoop (cx cy cw ch w mv : ℚ) (i : ℕ) (cs : List Candle) :
    priceLabelsOf (volumeLoop cx cy cw ch w mv i cs) = [] := by
  induction cs generalizing i with
  | nil => rfl
  | cons c rest ih => simp [volumeLoop, priceLabelsOf, List.filterMap_cons] at ih ⊢; exact ih _

theorem gridLinesOf_candleLoop (cx cy ch w mp sp : ℚ) (i : ℕ) (cs : List Candle) :
    gridLinesOf (candleLoop cx cy ch w mp sp i cs) = [] := by
  induction cs generalizing i with
  | nil => rfl
  | cons c rest ih => simp [candleLoop, gridLinesOf, List.filterMap_cons] at ih ⊢; exact ih _

theorem priceLabelsOf_candleLoop (cx cy ch w mp sp : ℚ) (i : ℕ) (cs : List Candle) :
    priceLabelsOf (candleLoop cx cy ch w mp sp i cs) = [] := by
  induction cs generalizing i with
  | nil => rfl
  | cons c rest ih => simp [candleLoop, priceLabelsOf, List.filterMap_cons] at ih ⊢; exact ih _

theorem gridLinesOf_crosshairPrims (cs : List Candle) (st : ChartState) (cx cy cw ch : ℚ) :
    gridLinesOf (crosshairPrims cs st cx cy cw ch) = [] := by
  rw [crosshairPrims]
  rcases st.cursor_position with _ | pos
  · rfl
  · simp only []
    split
    · split <;> rfl
    · rfl

theorem priceLabelsOf_crosshairPrims (cs : List Candle) (st : ChartState) (cx cy cw ch : ℚ) :
    priceLabelsOf (crosshairPrims cs st cx cy cw ch) = [] := by
  rw [crosshairPrims]
  rcases st.cursor_position with _ | pos
  · rfl
  · simp only []
    split
    · split <;> rfl
    · rfl

/-- The grid-related output of `draw` on any non-empty series: exactly six
horizontal grid lines at heights `i/5` of the chart (evenly spaced), each with
a price label 5 pixels to the right of the chart area at the matching price
`min + i/5 * span`. -/
theorem draw_gridLabels (cs : List Candle) (st : ChartState) (w h : ℚ) (hne : cs ≠ []) :
    gridLinesOf (CandlestickChart.draw cs st w h) =
      [(10, 10 + (h - 10 - 30) - 0 / 5 * (h - 10 - 30), 10 + (w - 10 - 60),
          10 + (h - 10 - 30) - 0 / 5 * (h - 10 - 30)),
       (10, 10 + (h - 10 - 30) - 1 / 5 * (h - 10 - 30), 10 + (w - 10 - 60),
          10 + (h - 10 - 30) - 1 / 5 * (h - 10 - 30)),
       (10, 10 + (h - 10 - 30) - 2 / 5 * (h - 10 - 30), 10 + (w - 10 - 60),
          10 + (h - 10 - 30) - 2 / 5 * (h - 10 - 30)),
       (10, 10 + (h - 10 - 30) - 3 / 5 * (h - 10 - 30), 10 + (w - 10 - 60),
          10 + (h - 10 - 30) - 3 / 5 * (h - 10 - 30)),
       (10, 10 + (h - 10 - 30) - 4 / 5 * (h - 10 - 30), 10 + (w - 10 - 60),
          10 + (h - 10 - 30) - 4 / 5 * (h - 10 - 30)),
       (10, 10 + (h - 10 - 30) - 5 / 5 * (h - 10 - 30), 10 + (w - 10 - 60),
          10 + (h - 10 - 30) - 5 / 5 * (h - 10 - 30))]
    ∧ priceLabelsOf (CandlestickChart.draw cs st w h) =
      [(10 + (w - 10 - 60) + 5, 10 + (h - 10 - 30) - 0 / 5 * (h - 10 - 30),
          paddedMinPrice cs + 0 / 5 * priceSpan cs),
       (10 + (w - 10 - 60) + 5, 10 + (h - 10 - 30) - 1 / 5 * (h - 10 - 30),
          paddedMinPrice cs + 1 / 5 * priceSpan cs),
       (10 + (w - 10 - 60) + 5, 10 + (h - 10 - 30) - 2 / 5 * (h - 10 - 30),
          paddedMinPrice cs + 2 / 5 * priceSpan cs),
       (10 + (w - 10 - 60) + 5, 10 + (h - 10 - 30) - 3 / 5 * (h - 10 - 30),
          paddedMinPrice cs + 3 / 5 * priceSpan cs),
       (10 + (w - 10 - 60) + 5, 10 + (h - 10 - 30) - 4 / 5 * (h - 10 - 30),
          paddedMinPrice cs + 4 / 5 * priceSpan cs),
       (10 + (w - 10 - 60) + 5, 10 + (h - 10 - 30) - 5 / 5 * (h - 10 - 30),
          paddedMinPrice cs + 5 / 5 * priceSpan cs)] := by
  have hdraw : CandlestickChart.draw cs st w h =
      Primitive.background w h
        :: (gridPrims 10 10 (w - 10 - 60) (h - 10 - 30) (paddedMinPrice cs) (priceSpan cs)
            ++ xLabelPrims cs 10 10 (w - 10 - 60) (h - 10 - 30)
            ++ [Primitive.border 10 10 (w - 10 - 60) (h - 10 - 30)]
            ++ volumeLoop 10 10 (w - 10 - 60) (h - 10 - 30)
                ((w - 10 - 60) / (cs.length : ℚ))
                (cs.foldl (fun m c => max m c.volume) F64_MIN) 0 cs
            ++ candleLoop 10 10 (h - 10 - 30) ((w - 10 - 60) / (cs.length : ℚ))
                (paddedMinPrice cs) (priceSpan cs) 0 cs
            ++ crosshairPrims cs st 10 10 (w - 10 - 60) (h - 10 - 30)) := by
    rw [CandlestickChart.draw, if_neg (by simp [hne])]
    simp only [volumePrims, candlePrims]
  constructor
  · rw [hdraw, show ∀ rest : List Primitive,
        gridLinesOf (Primitive.background w h :: rest) = gridLinesOf rest from
        fun rest => by simp [gridLinesOf]]
    rw [gridLinesOf_append, gridLinesOf_append, gridLinesOf_append, gridLinesOf_append,
      gridLinesOf_append, gridLinesOf_gridPrims, gridLinesOf_xLabelPrims,
      gridLinesOf_volumeLoop, gridLinesOf_candleLoop, gridLinesOf_crosshairPrims,
      show gridLinesOf [Primitive.border 10 10 (w - 10 - 60) (h - 10 - 30)] = [] from rfl]
    simp
  · rw [hdraw, show ∀ rest : List Primitive,
        priceLabelsOf (Primitive.background w h :: rest) = priceLabelsOf rest from
        fun rest => by simp [priceLabelsOf]]
    rw [priceLabelsOf_append, priceLabelsOf_append, priceLabelsOf_append,
      priceLabelsOf_append, priceLabelsOf_append, priceLabelsOf_gridPrims,
      priceLabelsOf_xLabelPrims, priceLabelsOf_volumeLoop, priceLabelsOf_candleLoop,
      priceLabelsOf_crosshairPrims,
      show priceLabelsOf [Primitive.border 10 10 (w - 10 - 60) (h - 10 - 30)] = [] from rfl]
    simp

/-! Claim theorems. -/

/-- C1: the claimed series-window invariant is NOT preserved by every operation.
Two reachable violations: (a) loading 5 bars and pressing ZoomIn once makes
`visible_candles - 10` underflow the `usize`, so `visible_candles` wraps to
`2 ^ 64 - 5`, far above the series length (debug builds panic instead);
(b) loading 100 bars, zooming in to 50 visible, panning to the maximum offset
50 and then pressing ZoomOut leaves `pan_offset = 50 > 100 - 60 = 40` —
`pan_offset` is never re-clamped after a zoom. -/
theorem c1_invariant_not_preserved :
    (c1sA.candles.length = 5 ∧ c1sA.visible_candles = 2 ^ 64 - 5 ∧
      ¬ c1sA.visible_candles ≤ c1sA.candles.length)
    ∧ (c1s4.candles.length = 100 ∧ c1s4.visible_candles = 60 ∧ c1s4.pan_offset = 50 ∧
      ¬ c1s4.pan_offset ≤ c1s4.candles.length - c1s4.visible_candles) := by
  have hA : c1sA.candles.length = 5 ∧ c1sA.visible_candles = 2 ^ 64 - 5 := by
    constructor
    · unfold c1sA; rw [update_zoomIn_candles, update_ok_candles]; simp
    · unfold c1sA; rw [update_zoomIn_visible, update_ok_visible]; decide
  have h1c : c1s1.candles.length = 100 := by
    unfold c1s1; rw [update_ok_candles]; simp
  have h1v : c1s1.visible_candles = 100 := by
    unfold c1s1; rw [update_ok_visible]; simp [App.new]
  have h1p : c1s1.pan_offset = 0 := by unfold c1s1; rw [update_ok_pan]
  have h2c : c1s2.candles.length = 100 := by
    unfold c1s2
    rw [update_zoomIn_candles, update_zoomIn_candles, update_zoomIn_candles,
      update_zoomIn_candles, update_zoomIn_candles, h1c]
  have h2v : c1s2.visible_candles = 50 := by
    unfold c1s2
    rw [update_zoomIn_visible, update_zoomIn_visible, update_zoomIn_visible,
      update_zoomIn_visible, update_zoomIn_visible, h1v]
    decide
  have h2p : c1s2.pan_offset = 0 := by
    unfold c1s2
    rw [update_zoomIn_pan, update_zoomIn_pan, update_zoomIn_pan,
      update_zoomIn_pan, update_zoomIn_pan, h1p]
  have h3c : c1s3.candles.length = 100 := by unfold c1s3; rw [update_pan_candles, h2c]
  have h3v : c1s3.visible_candles = 50 := by unfold c1s3; rw [update_pan_visible, h2v]
  have h3p : c1s3.pan_offset = 50 := by
    unfold c1s3
    rw [update_pan_pan, h2p, h2v, h2c]
    have harg : (400 : ℚ) * 2 / (800 / ((50 : ℕ) : ℚ)) = 50 := by norm_num
    rw [harg]
    have hf : f32ToI32 (50 : ℚ) = 50 := by
      rw [f32ToI32, ratTrunc, if_pos (by norm_num)]
      norm_num
    rw [hf]
    decide
  have h4c : c1s4.candles.length = 100 := by unfold c1s4; rw [update_zoomOut_candles, h3c]
  have h4v : c1s4.visible_candles = 60 := by
    unfold c1s4; rw [update_zoomOut_visible, h3v, h3c]; decide
  have h4p : c1s4.pan_offset = 50 := by unfold c1s4; rw [update_zoomOut_pan, h3p]
  exact ⟨⟨hA.1, hA.2, by rw [hA.1, hA.2]; decide⟩,
    h4c, h4v, h4p, by rw [h4c, h4v, h4p]; decide⟩

/-- C2: on a zero-length series, zoom is NOT a no-op. After loading an empty
series `visible_candles` is clamped to 0, and one ZoomIn press computes
`0usize - 10`, wrapping `visible_candles` to `2 ^ 64 - 10` in release builds
(debug builds panic on the underflow); the state changes. -/
theorem c2_zoom_on_empty_series_not_noop :
    c2s0.candles = [] ∧ c2s0.visible_candles = 0 ∧
      c2s1.visible_candles = 2 ^ 64 - 10 ∧ c2s1 ≠ c2s0 := by
  refine ⟨by decide, by decide, by decide, by decide⟩

/-- C3: rendering the degenerate one-bar series (`high = low = open = close`,
`volume = 0`) does NOT produce finite primitives: the price span and the
max-volume divisor are unguarded, so `0/0 = NaN` makes both wick endpoints and
the volume-bar height NaN (the claimed wick length 0 and bar height 0 would
require the guards the spec describes). -/
theorem c3_degenerate_bar_nan_primitives :
    wickYsOf (CandlestickChart.draw [degenerateCandle] ChartState.default 800 600)
        = [(FVal.nan, FVal.nan)]
    ∧ volumeHeightsOf (CandlestickChart.draw [degenerateCandle] ChartState.default 800 600)
        = [FVal.nan] := by
  have h1 : rawMinPrice [degenerateCandle] = 100 := by
    rw [rawMinPrice]
    simp only [List.foldl_cons, List.foldl_nil, degenerateCandle]
    rw [min_eq_right (by rw [F64_MAX]; norm_num)]
  have h2 : rawMaxPrice [degenerateCandle] = 100 := by
    rw [rawMaxPrice]
    simp only [List.foldl_cons, List.foldl_nil, degenerateCandle]
    rw [max_eq_right (by rw [F64_MIN, F64_MAX]; norm_num)]
  have hmin : paddedMinPrice [degenerateCandle] = 100 := by
    rw [paddedMinPrice, h1, h2]; norm_num
  have hspan : priceSpan [degenerateCandle] = 0 := by
    rw [priceSpan, paddedMaxPrice, paddedMinPrice, h1, h2]; norm_num
  have hmv : List.foldl (fun m c => max m c.volume) F64_MIN [degenerateCandle] = 0 := by
    simp only [List.foldl_cons, List.foldl_nil, degenerateCandle]
    rw [max_eq_right (by rw [F64_MIN, F64_MAX]; norm_num)]
  have hdraw : CandlestickChart.draw [degenerateCandle] ChartState.default 800 600 =
      Primitive.background 800 600
        :: (gridPrims 10 10 (800 - 10 - 60) (600 - 10 - 30) 100 0
            ++ xLabelPrims [degenerateCandle] 10 10 (800 - 10 - 60) (600 - 10 - 30)
            ++ [Primitive.border 10 10 (800 - 10 - 60) (600 - 10 - 30)]
            ++ volumeLoop 10 10 (800 - 10 - 60) (600 - 10 - 30)
                ((800 - 10 - 60) / ((1 : ℕ) : ℚ)) 0 0 [degenerateCandle]
            ++ candleLoop 10 10 (600 - 10 - 30)
                ((800 - 10 - 60) / ((1 : ℕ) : ℚ)) 100 0 0 [degenerateCandle]
            ++ crosshairPrims [degenerateCandle] ChartState.default 10 10 (800 - 10 - 60)
                (600 - 10 - 30)) := by
    rw [CandlestickChart.draw]
    simp only [List.isEmpty_cons, Bool.false_eq_true, if_false, hmin, hspan,
      volumePrims, candlePrims, hmv, List.length_cons, List.length_nil]
  rw [hdraw]
  have hgw : ∀ cx cy cw ch mp sp : ℚ, wickYsOf (gridPrims cx cy cw ch mp sp) = [] := by
    intro cx cy cw ch mp sp
    simp [wickYsOf, gridPrims, List.filterMap_eq_nil_iff, List.mem_flatMap]
    rintro p i hi (rfl | rfl) <;> rfl
  have hgv : ∀ cx cy cw ch mp sp : ℚ,
      volumeHeightsOf (gridPrims cx cy cw ch mp sp) = [] := by
    intro cx cy cw ch mp sp
    simp [volumeHeightsOf, gridPrims, List.filterMap_eq_nil_iff, List.mem_flatMap]
    rintro p i hi (rfl | rfl) <;> rfl
  have hxw : ∀ (cs : List Candle) (cx cy cw ch : ℚ),
      wickYsOf (xLabelPrims cs cx cy cw ch) = [] := by
    intro cs cx cy cw ch
    simp [wickYsOf, xLabelPrims, List.filterMap_eq_nil_iff]
  have hxv : ∀ (cs : List Candle) (cx cy cw ch : ℚ),
      volumeHeightsOf (xLabelPrims cs cx cy cw ch) = [] := by
    intro cs cx cy cw ch
    simp [volumeHeightsOf, xLabelPrims, List.filterMap_eq_nil_iff]
  have hcw : ∀ (cs : List Candle) (st : ChartState) (cx cy cw ch : ℚ),
      wickYsOf (crosshairPrims cs st cx cy cw ch) = [] := by
    intro cs st cx cy cw ch
    rw [crosshairPrims]
    rcases st.cursor_position with _ | pos
    · rfl
    · simp only []
      split
      · split <;> rfl
      · rfl
  have hcv : ∀ (cs : List Candle) (st : ChartState) (cx cy cw ch : ℚ),
      volumeHeightsOf (crosshairPrims cs st cx cy cw ch) = [] := by
    intro cs st cx cy cw ch
    rw [crosshairPrims]
    rcases st.cursor_position with _ | pos
    · rfl
    · simp only []
      split
      · split <;> rfl
      · rfl
  have hvw : ∀ (cx cy cw ch w mv : ℚ) (i : ℕ) (cs : List Candle),
      wickYsOf (volumeLoop cx cy cw ch w mv i cs) = [] := by
    intro cx cy cw ch w mv i cs
    induction cs generalizing i with
    | nil => rfl
    | cons c rest ih => simp [volumeLoop, wickYsOf, List.filterMap_cons] at ih ⊢; exact ih _
  have hklv : ∀ (cx cy ch w mp sp : ℚ) (i : ℕ) (cs : List Candle),
      volumeHeightsOf (candleLoop cx cy ch w mp sp i cs) = [] := by
    intro cx cy ch w mp sp i cs
    induction cs generalizing i with
    | nil => rfl
    | cons c rest ih =>
        simp [candleLoop, volumeHeightsOf, List.filterMap_cons] at ih ⊢; exact ih _
  constructor
  · rw [show ∀ rest : List Primitive,
        wickYsOf (Primitive.background 800 600 :: rest) = wickYsOf rest from
        fun rest => by simp [wickYsOf]]
    rw [wickYsOf_append, wickYsOf_append, wickYsOf_append, wickYsOf_append,
      wickYsOf_append, hgw, hxw, hvw, hcw,
      show wickYsOf [Primitive.border 10 10 (800 - 10 - 60) (600 - 10 - 30)] = [] from rfl]
    simp only [List.nil_append, List.append_nil]
    simp [candleLoop, wickYsOf, degenerateCandle, List.filterMap_cons, priceToY_nan]
  · rw [show ∀ rest : List Primitive,
        volumeHeightsOf (Primitive.background 800 600 :: rest) = volumeHeightsOf rest from
        fun rest => by simp [volumeHeightsOf]]
    rw [volumeHeightsOf_append, volumeHeightsOf_append, volumeHeightsOf_append,
      volumeHeightsOf_append, volumeHeightsOf_append, hgv, hxv, hklv, hcv,
      show volumeHeightsOf [Primitive.border 10 10 (800 - 10 - 60) (600 - 10 - 30)] = []
        from rfl]
    simp only [List.nil_append, List.append_nil]
    simp only [volumeLoop, volumeHeightsOf, List.filterMap_cons, List.filterMap_nil,
      degenerateCandle]
    norm_num [FVal.div, FVal.mul]

/-- C4: loading an empty series over a previously loaded one does NOT make the
chart draw nothing: `update_chart` returns early on the empty series without
replacing `chart`, so the stale chart built from the old series is still
displayed and still renders its candles. -/
theorem c4_stale_chart_after_empty_load :
    c4s2.candles = [] ∧ c4s2.chart = some [sampleCandle] ∧
      c4s2.displayedCandles = [sampleCandle] ∧
      CandlestickChart.draw c4s2.displayedCandles ChartState.default 800 600 ≠ [] := by
  have h1 : c4s1.chart = some [sampleCandle] := by
    rw [c4s1, update_ok_chart, App.update_chart]
    simp [App.visibleStartEnd, App.new]
    decide
  have h2 : c4s2.chart = some [sampleCandle] := by
    rw [c4s2, update_ok_chart, App.update_chart]
    simp only [List.isEmpty_nil, if_true]
    exact h1
  have h3 : c4s2.candles = [] := by rw [c4s2, update_ok_candles]
  have h4 : c4s2.displayedCandles = [sampleCandle] := by rw [App.displayedCandles, h2]
  refine ⟨h3, h2, h4, ?_⟩
  rw [h4, CandlestickChart.draw]
  simp

/-- C5: pan converts the pixel delta to a bar delta by
`truncate(pixel_delta * 2 / (800 / visible_count))` and clamps the new
`pan_offset` to `[0, length - visible_count]`; a positive pixel delta never
decreases `pan_offset`. Stated for window states within `i32`/`usize` range
(the casts the source performs are then exact). -/
theorem c5_pan_pixel_to_bar_conversion (app : App) (pixelDelta : ℚ)
    (hvc : 0 < app.visible_candles)
    (hlen : app.candles.length < 2 ^ 30)
    (hvl : app.visible_candles ≤ app.candles.length)
    (hpo : app.pan_offset ≤ app.candles.length - app.visible_candles)
    (hd : (ratTrunc (pixelDelta * 2 / (800 / (app.visible_candles : ℚ)))).natAbs < 2 ^ 30) :
    ((app.update (.chartEvent (.pan pixelDelta))).pan_offset : ℤ)
        = min (max ((app.pan_offset : ℤ) +
            ratTrunc (pixelDelta * 2 / (800 / (app.visible_candles : ℚ)))) 0)
          ((app.candles.length : ℤ) - (app.visible_candles : ℤ))
    ∧ (0 < pixelDelta →
        app.pan_offset ≤ (app.update (.chartEvent (.pan pixelDelta))).pan_offset) := by
  have hunf := update_pan_pan app pixelDelta
  set d : ℤ := ratTrunc (pixelDelta * 2 / (800 / (app.visible_candles : ℚ))) with hdd
  rw [hunf, usizeToI32_of_lt app.pan_offset (by omega),
      usizeToI32_of_lt (app.candles.length - app.visible_candles) (by omega),
      f32ToI32_of _ (by omega),
      i32Wrap_of _ (by omega) (by omega),
      i32ToUsize_of _ (by omega) (by omega)]
  constructor
  · omega
  · intro hpos
    have hdnn : 0 ≤ d := by
      rw [hdd]
      exact ratTrunc_nonneg _ (by positivity)
    omega

/-- C5 witness: the spec's drag scenario, a -50px drag at `visible_candles =
100` on the freshly loaded 500-bar series: the bar delta is
`truncate(-50 * 2 / 8) = -12` and `pan_offset` is clamped at 0. -/
theorem c5_pan_pixel_to_bar_conversion_witness :
    ((app500.update (.chartEvent (.pan (-50)))).pan_offset : ℤ)
        = min (max ((app500.pan_offset : ℤ) +
            ratTrunc ((-50 : ℚ) * 2 / (800 / (app500.visible_candles : ℚ)))) 0)
          ((app500.candles.length : ℤ) - (app500.visible_candles : ℤ))
    ∧ (0 < (-50 : ℚ) →
        app500.pan_offset ≤ (app500.update (.chartEvent (.pan (-50)))).pan_offset) :=
  c5_pan_pixel_to_bar_conversion app500 (-50)
    (by simp [app500_visible])
    (by simp [app500_len])
    (by simp [app500_visible, app500_len])
    (by simp [app500_pan])
    (by simp [app500_visible, c5_trunc_eval])

/-- C6: with 500 bars, `visible_candles = 100` and `pan_offset = 0`, the
visible slice is `[400, 500)`; one upward wheel scroll (any positive delta)
lowers `visible_candles` to 95 (step 5, floored at 10) and the slice becomes
`[405, 500)`. -/
theorem c6_wheel_zoom_scenario (app : App) (δ : ℚ)
    (hlen : app.candles.length = 500) (hvc : app.visible_candles = 100)
    (hpo : app.pan_offset = 0) (hδ : 0 < δ) :
    app.visibleStartEnd = (400, 500)
    ∧ (app.update (.chartEvent (.zoom δ))).visible_candles = 95
    ∧ (app.update (.chartEvent (.zoom δ))).visibleStartEnd = (405, 500) := by
  refine ⟨?_, ?_, ?_⟩
  · rw [App.visibleStartEnd, hlen, hvc, hpo]; decide
  · rw [update_wzoomIn_visible app δ hδ, hvc]; decide
  · rw [App.visibleStartEnd, update_wzoomIn_candles app δ hδ,
      update_wzoomIn_pan app δ hδ, update_wzoomIn_visible app δ hδ, hlen, hvc, hpo]
    decide

/-- C6 witness: the scenario on the freshly loaded 500-bar series with wheel
delta 1. -/
theorem c6_wheel_zoom_scenario_witness :
    app500.visibleStartEnd = (400, 500)
    ∧ (app500.update (.chartEvent (.zoom 1))).visible_candles = 95
    ∧ (app500.update (.chartEvent (.zoom 1))).visibleStartEnd = (405, 500) :=
  c6_wheel_zoom_scenario app500 1 (by simp [app500_len]) (by simp [app500_visible])
    (by simp [app500_pan]) one_pos

/-- C7: zoom-in followed by zoom-out with the same step restores
`visible_candles` whenever neither end is clamped (`visible_candles - step > 10`
and `visible_candles ≤ length`), for the button step 10 and the wheel step 5. -/
theorem c7_zoom_roundtrip (app : App) (δ₁ δ₂ : ℚ)
    (hwrap : app.candles.length < 2 ^ 64)
    (hvl : app.visible_candles ≤ app.candles.length) :
    (10 + 10 < app.visible_candles →
      ((app.update .zoomIn).update .zoomOut).visible_candles = app.visible_candles)
    ∧ (10 + 5 < app.visible_candles → 0 < δ₁ → δ₂ ≤ 0 →
      ((app.update (.chartEvent (.zoom δ₁))).update (.chartEvent (.zoom δ₂))).visible_candles
        = app.visible_candles) := by
  constructor
  · intro hgt
    rw [update_zoomOut_visible, update_zoomIn_candles, update_zoomIn_visible,
      usizeSub_of_le _ _ (by omega) (by omega)]
    rw [show max (app.visible_candles - 10) 10 = app.visible_candles - 10 by omega]
    rw [usizeAdd_of_lt _ _ (by omega)]
    omega
  · intro hgt h1 h2
    rw [update_wzoomOut_visible _ _ (fun hc => absurd h2 (not_le.mpr hc)),
      update_wzoomIn_candles app δ₁ h1, update_wzoomIn_visible app δ₁ h1,
      usizeSub_of_le _ _ (by omega) (by omega)]
    rw [show max (app.visible_candles - 5) 10 = app.visible_candles - 5 by omega]
    rw [usizeAdd_of_lt _ _ (by omega)]
    omega

/-- C7 witness: on the 30-bar series (30 visible) both round-trips restore
`visible_candles`. -/
theorem c7_zoom_roundtrip_witness :
    ((app30.update .zoomIn).update .zoomOut).visible_candles = app30.visible_candles
    ∧ ((app30.update (.chartEvent (.zoom 1))).update
        (.chartEvent (.zoom (-1)))).visible_candles = app30.visible_candles :=
  ⟨(c7_zoom_roundtrip app30 1 (-1) (by simp [app30_len])
      (by simp [app30_visible, app30_len])).1 (by simp [app30_visible]),
   (c7_zoom_roundtrip app30 1 (-1) (by simp [app30_len])
      (by simp [app30_visible, app30_len])).2 (by simp [app30_visible]) one_pos
      (neg_nonpos.mpr zero_le_one)⟩

/-- C8 counterexample: on a concrete one-bar series and an 800 × 600 surface
the renderer emits 6 horizontal grid lines, not 5 (the loop runs
`0..=num_price_lines` inclusively). -/
theorem c8_five_grid_lines_counterexample :
    ¬ (gridLinesOf (CandlestickChart.draw [sampleCandle] ChartState.default 800 600)).length
        = 5 := by
  rw [(draw_gridLabels [sampleCandle] ChartState.default 800 600 (by simp)).1]
  decide

/-- C8 (amended): the renderer emits exactly 6 horizontal grid lines, evenly
spaced at heights `i/5` of the chart for `i = 0..5`, each with a price label
placed 5 pixels to the right of the chart area at the evenly spaced price
`price_min + i/5 * price_span`. -/
theorem c8_six_grid_lines (cs : List Candle) (st : ChartState) (w h : ℚ) (hne : cs ≠ []) :
    gridLinesOf (CandlestickChart.draw cs st w h) =
      [(10, 10 + (h - 10 - 30) - 0 / 5 * (h - 10 - 30), 10 + (w - 10 - 60),
          10 + (h - 10 - 30) - 0 / 5 * (h - 10 - 30)),
       (10, 10 + (h - 10 - 30) - 1 / 5 * (h - 10 - 30), 10 + (w - 10 - 60),
          10 + (h - 10 - 30) - 1 / 5 * (h - 10 - 30)),
       (10, 10 + (h - 10 - 30) - 2 / 5 * (h - 10 - 30), 10 + (w - 10 - 60),
          10 + (h - 10 - 30) - 2 / 5 * (h - 10 - 30)),
       (10, 10 + (h - 10 - 30) - 3 / 5 * (h - 10 - 30), 10 + (w - 10 - 60),
          10 + (h - 10 - 30) - 3 / 5 * (h - 10 - 30)),
       (10, 10 + (h - 10 - 30) - 4 / 5 * (h - 10 - 30), 10 + (w - 10 - 60),
          10 + (h - 10 - 30) - 4 / 5 * (h - 10 - 30)),
       (10, 10 + (h - 10 - 30) - 5 / 5 * (h - 10 - 30), 10 + (w - 10 - 60),
          10 + (h - 10 - 30) - 5 / 5 * (h - 10 - 30))]
    ∧ priceLabelsOf (CandlestickChart.draw cs st w h) =
      [(10 + (w - 10 - 60) + 5, 10 + (h - 10 - 30) - 0 / 5 * (h - 10 - 30),
          paddedMinPrice cs + 0 / 5 * priceSpan cs),
       (10 + (w - 10 - 60) + 5, 10 + (h - 10 - 30) - 1 / 5 * (h - 10 - 30),
          paddedMinPrice cs + 1 / 5 * priceSpan cs),
       (10 + (w - 10 - 60) + 5, 10 + (h - 10 - 30) - 2 / 5 * (h - 10 - 30),
          paddedMinPrice cs + 2 / 5 * priceSpan cs),
       (10 + (w - 10 - 60) + 5, 10 + (h - 10 - 30) - 3 / 5 * (h - 10 - 30),
          paddedMinPrice cs + 3 / 5 * priceSpan cs),
       (10 + (w - 10 - 60) + 5, 10 + (h - 10 - 30) - 4 / 5 * (h - 10 - 30),
          paddedMinPrice cs + 4 / 5 * priceSpan cs),
       (10 + (w - 10 - 60) + 5, 10 + (h - 10 - 30) - 5 / 5 * (h - 10 - 30),
          paddedMinPrice cs + 5 / 5 * priceSpan cs)] :=
  draw_gridLabels cs st w h hne

/-- C8 witness: on the one-bar series and an 800 × 600 surface the renderer
emits exactly 6 grid lines and 6 price labels. -/
theorem c8_six_grid_lines_witness :
    (gridLinesOf (CandlestickChart.draw [sampleCandle] ChartState.default 800 600)).length = 6
    ∧ (priceLabelsOf
        (CandlestickChart.draw [sampleCandle] ChartState.default 800 600)).length = 6 := by
  have h := c8_six_grid_lines [sampleCandle] ChartState.default 800 600 (by simp)
  rw [h.1, h.2]
  decide

/-- C9: a bar is classified bullish exactly when `close >= open`; in
particular a bar with `close = open` is bullish. -/
theorem c9_bullish_iff_close_ge_open (c : Candle) :
    (c.is_bullish = true ↔ c.open_ ≤ c.close)
    ∧ (c.close = c.open_ → c.is_bullish = true) := by
  constructor
  · simp [Candle.is_bullish]
  · intro h
    simp [Candle.is_bullish, h]

/-- C9 witness: the boundary bar with `close = open` is classified bullish. -/
theorem c9_bullish_iff_close_ge_open_witness :
    (Candle.mk 0 5 7 3 5 0).is_bullish = true :=
  (c9_bullish_iff_close_ge_open (Candle.mk 0 5 7 3 5 0)).2 rfl

/-- C10: a left-button press while the cursor reports no position leaves the
interaction state unchanged, emits no message, and reports the event as
ignored. -/
theorem c10_press_without_cursor_ignored (state : ChartState) :
    CandlestickChart.update state (.mouse (.buttonPressed .left)) none
      = (state, Status.ignored, none) := rfl

/-- C10 witness: the default interaction state is returned unchanged. -/
theorem c10_press_without_cursor_ignored_witness :
    CandlestickChart.update ChartState.default (.mouse (.buttonPressed .left)) none
      = (ChartState.default, Status.ignored, none) :=
  c10_press_without_cursor_ignored ChartState.default

end Candlestick
